import Mathlib

/-!
Shallow embedding of the BAC planner core, translated from
src/bac_planner_python_program.py (mass variant) and
src/bac_planner_python_program(1).py (volume variant).

Python floats are modelled as exact rationals (all arithmetic in the core
is +, -, *, / with decimal constants); Python strings are modelled as
lists of unicode scalar characters (List Char), which matches Python's
view of a str as a sequence of code points.
-/

namespace BacPlanner

/-- The two inhabitants of the type alias Sex = Literal["male", "female"]. -/
inductive Sex
  | male
  | female
  deriving DecidableEq, Repr

/-- The Inputs dataclass (identical in both source variants). -/
structure Inputs where
  sex : Sex
  weight_kg : ℚ
  height_cm : ℚ
  age_years : ℤ
  duration_hours : ℚ
  target_bac : ℚ
  beta : ℚ := 0.015
  deriving DecidableEq, Repr

/-- The Plan dataclass of the mass-only variant (grams). -/
structure Plan where
  tbw_L : ℚ
  tbw_dL : ℚ
  loading_grams : ℚ
  maintenance_g_per_h : ℚ
  total_grams_for_duration : ℚ
  std_drinks_12g : ℚ
  std_drinks_14g : ℚ
  deriving DecidableEq, Repr

/-- The Plan dataclass of the volume variant (milliliters). -/
structure PlanVol where
  tbw_L : ℚ
  tbw_dL : ℚ
  loading_ml : ℚ
  maintenance_ml_per_h : ℚ
  total_ml_for_duration : ℚ
  std_drinks_12g : ℚ
  std_drinks_14g : ℚ
  deriving DecidableEq, Repr

/-- ETHANOL_DENSITY = 0.789 g/mL (volume variant, line 27). -/
def ETHANOL_DENSITY : ℚ := 0.789

/-- The BEVERAGES table of the volume variant: beverage name to ABV fraction. -/
def BEVERAGES : List (String × ℚ) :=
  [ ("Beer (5%)", 0.05),
    ("Wine (12%)", 0.12),
    ("Fortified Wine (18%)", 0.18),
    ("Spirits (40%)", 0.40) ]

/-- watson_tbw_liters, dispatching on the two values of the Sex type
(identical in both source variants). -/
def watson_tbw_liters (sex : Sex) (weight_kg height_cm : ℚ) (age_years : ℤ) : ℚ :=
  match sex with
  | .male => 2.447 - 0.09516 * (age_years : ℚ) + 0.1074 * height_cm + 0.3362 * weight_kg
  | .female => -2.097 + 0.1069 * height_cm + 0.2466 * weight_kg

/-- watson_tbw_liters as the dynamically typed Python runtime executes it:
the Sex type alias is an unenforced hint, the body is
`if sex == "male": <male formula> else: <female formula>`,
so the else branch receives every string other than "male". -/
def watson_tbw_liters_runtime (sex : String) (weight_kg height_cm : ℚ) (age_years : ℤ) : ℚ :=
  if sex = "male" then
    2.447 - 0.09516 * (age_years : ℚ) + 0.1074 * height_cm + 0.3362 * weight_kg
  else
    -2.097 + 0.1069 * height_cm + 0.2466 * weight_kg

/-! ### String machinery for parse_bac -/

/-- ASCII model of the whitespace set stripped by Python str.strip()
and skipped by float(). -/
def pyIsSpace (c : Char) : Bool :=
  c = ' ' || c = '\t' || c = '\n' || c = '\r' || c = '\x0b' || c = '\x0c'

/-- Drop leading whitespace characters. -/
def lstripWs : List Char → List Char
  | [] => []
  | c :: r => if pyIsSpace c then lstripWs r else c :: r

/-- Python str.strip(): drop leading and trailing whitespace. -/
def stripWs (l : List Char) : List Char :=
  ((lstripWs (lstripWs l).reverse)).reverse

/-- Python str.lower(), modelled per character on the ASCII letters
(the only cased characters the surrounding program ever feeds it). -/
def pyLower (l : List Char) : List Char :=
  l.map Char.toLower

/-- Python str.replace(" ", ""): remove every ASCII space. -/
def removeSpaces (l : List Char) : List Char :=
  l.filter (fun c => !(c = ' '))

/-- `s = value.strip().lower().replace(" ", "")` (parse_bac line 1). -/
def normalizeBacText (value : String) : List Char :=
  removeSpaces (pyLower (stripWs value.data))

/-- Does `hay` start with `needle`? -/
def listStartsWith : List Char → List Char → Bool
  | [], _ => true
  | _ :: _, [] => false
  | a :: as, b :: bs => a = b && listStartsWith as bs

/-- Python `needle in hay`: substring search, not anchored. -/
def listContains (needle : List Char) : List Char → Bool
  | [] => listStartsWith needle []
  | c :: rest => listStartsWith needle (c :: rest) || listContains needle rest

/-- Python str.endswith. -/
def listEndsWith (sfx l : List Char) : Bool :=
  listStartsWith sfx.reverse l.reverse

/-- Python `s[: -n]` for n ≤ len s: drop the last n characters. -/
def dropLastN (n : Nat) (l : List Char) : List Char :=
  l.take (l.length - n)

/-- The characters of the word marker "permille". -/
def pmWord : List Char := "permille".data

/-- The characters of the marker "/1000". -/
def slashKilo : List Char := "/1000".data

/-- The markers scanned by `any(x in s for x in ["‰", "permille", "/1000"])`. -/
def permilleMarkers : List (List Char) := [['‰'], pmWord, slashKilo]

/-- The ordered suffix candidates of the stripping loop:
`for suf in ["%", "‰", "permille", "/1000"]`. -/
def suffixCandidates : List (List Char) := [['%'], ['‰'], pmWord, slashKilo]

/-- `any(x in s for x in [...])`: true iff some marker occurs in `l`. -/
def hasPermilleMarker (l : List Char) : Bool :=
  permilleMarkers.any (fun m => listContains m l)

/-- The suffix-stripping loop: try the candidates in order and, at the
first one `l` ends with, drop it once and stop (`break`). -/
def stripFirstMatching : List (List Char) → List Char → List Char
  | [], l => l
  | sfx :: rest, l =>
      if listEndsWith sfx l then dropLastN sfx.length l
      else stripFirstMatching rest l

/-! ### A model of Python float()

Modelled on finite decimal and scientific literals with an optional
sign and surrounding whitespace:
`[ws] [sign] (digits [. digits] | . digits) [(e|E) [sign] digits] [ws]`.
Underscore digit separators and the non-finite literals inf/infinity/nan
are outside the model (no rational represents them). -/

/-- Is `c` an ASCII digit? -/
def isDig (c : Char) : Bool := '0' ≤ c && c ≤ '9'

/-- Value of an ASCII digit. -/
def digitVal (c : Char) : Nat := c.toNat - 48

/-- Value of a digit run, most significant first. -/
def digitsToNat (l : List Char) : Nat :=
  l.foldl (fun a c => 10 * a + digitVal c) 0

/-- The exponent tail: empty, or (e|E) [sign] digits reaching end of input. -/
def parseExpTail : List Char → Option ℤ
  | [] => some 0
  | c :: r =>
      if c = 'e' || c = 'E' then
        match r with
        | '+' :: r2 =>
            let d := r2.takeWhile isDig
            if d.isEmpty || !(r2.dropWhile isDig).isEmpty then none
            else some (digitsToNat d : ℤ)
        | '-' :: r2 =>
            let d := r2.takeWhile isDig
            if d.isEmpty || !(r2.dropWhile isDig).isEmpty then none
            else some (-(digitsToNat d : ℤ))
        | _ =>
            let d := r.takeWhile isDig
            if d.isEmpty || !(r.dropWhile isDig).isEmpty then none
            else some (digitsToNat d : ℤ)
      else none

/-- An unsigned float literal: digits [. digits] or . digits, then the
exponent tail. -/
def parseUnsigned (l : List Char) : Option ℚ :=
  let ip := l.takeWhile isDig
  let r1 := l.dropWhile isDig
  match r1 with
  | '.' :: r2 =>
      let fp := r2.takeWhile isDig
      let r3 := r2.dropWhile isDig
      if ip.isEmpty && fp.isEmpty then none
      else
        (parseExpTail r3).map (fun e =>
          ((digitsToNat ip : ℚ) + (digitsToNat fp : ℚ) / 10 ^ fp.length) * 10 ^ e)
  | _ =>
      if ip.isEmpty then none
      else (parseExpTail r1).map (fun e => (digitsToNat ip : ℚ) * 10 ^ e)

/-- Python float() on a character list: strip whitespace, optional sign,
unsigned literal. Returns none where float() raises ValueError. -/
def parsePyFloat (l : List Char) : Option ℚ :=
  match stripWs l with
  | '+' :: r => parseUnsigned r
  | '-' :: r => (parseUnsigned r).map Neg.neg
  | s => parseUnsigned s

/-- parse_bac (identical in both source variants). Returns none where
the Python function raises (the float() ValueError, surfaced by the
caller as the parse error). -/
def parse_bac (value : String) : Option ℚ :=
  let s := normalizeBacText value
  let is_permille := hasPermilleMarker s
  let s2 := stripFirstMatching suffixCandidates s
  match parsePyFloat s2 with
  | none => none
  | some x => some (if is_permille then x * 0.1 else x)

/-- make_plan of the mass-only variant. -/
def make_plan (inp : Inputs) : Plan :=
  let tbw_L := watson_tbw_liters inp.sex inp.weight_kg inp.height_cm inp.age_years
  let tbw_dL := tbw_L * 10.0
  let loading_grams := inp.target_bac * tbw_dL
  let maintenance_g_per_h := inp.beta * tbw_dL
  let total_grams_for_duration := loading_grams + maintenance_g_per_h * inp.duration_hours
  let std_drinks_12g := total_grams_for_duration / 12.0
  let std_drinks_14g := total_grams_for_duration / 14.0
  { tbw_L := tbw_L
    tbw_dL := tbw_dL
    loading_grams := loading_grams
    maintenance_g_per_h := maintenance_g_per_h
    total_grams_for_duration := total_grams_for_duration
    std_drinks_12g := std_drinks_12g
    std_drinks_14g := std_drinks_14g }

/-- make_plan of the volume variant: same gram computation, then each mass
divided by ETHANOL_DENSITY. -/
def make_plan_vol (inp : Inputs) : PlanVol :=
  let tbw_L := watson_tbw_liters inp.sex inp.weight_kg inp.height_cm inp.age_years
  let tbw_dL := tbw_L * 10.0
  let loading_grams := inp.target_bac * tbw_dL
  let maintenance_g_per_h := inp.beta * tbw_dL
  let total_grams_for_duration := loading_grams + maintenance_g_per_h * inp.duration_hours
  let loading_ml := loading_grams / ETHANOL_DENSITY
  let maintenance_ml_per_h := maintenance_g_per_h / ETHANOL_DENSITY
  let total_ml_for_duration := total_grams_for_duration / ETHANOL_DENSITY
  let std_drinks_12g := total_grams_for_duration / 12.0
  let std_drinks_14g := total_grams_for_duration / 14.0
  { tbw_L := tbw_L
    tbw_dL := tbw_dL
    loading_ml := loading_ml
    maintenance_ml_per_h := maintenance_ml_per_h
    total_ml_for_duration := total_ml_for_duration
    std_drinks_12g := std_drinks_12g
    std_drinks_14g := std_drinks_14g }

/-- ethanol_to_beverage_volume of the volume variant. -/
def ethanol_to_beverage_volume (ethanol_ml abv : ℚ) : ℚ :=
  ethanol_ml / abv

/-- The per-beverage total volumes computed by the volume variant's display
loop: `ethanol_to_beverage_volume(plan.total_ml_for_duration, abv)` for
each BEVERAGES entry. -/
def beverage_total_volumes (p : PlanVol) : List (String × ℚ) :=
  BEVERAGES.map (fun nv => (nv.1, ethanol_to_beverage_volume p.total_ml_for_duration nv.2))

/-- The per-beverage hourly volumes computed by the volume variant's display
loop: `ethanol_to_beverage_volume(plan.maintenance_ml_per_h, abv)` for
each BEVERAGES entry. -/
def beverage_hourly_volumes (p : PlanVol) : List (String × ℚ) :=
  BEVERAGES.map (fun nv => (nv.1, ethanol_to_beverage_volume p.maintenance_ml_per_h nv.2))

/-! ### The spec's reference parsing algorithm

Written from the spec's words (section 4.2), to be compared with the
source function parse_bac. -/

/-- The five-step reference algorithm of spec section 4.2: normalize
(trim outer whitespace, lowercase, remove internal spaces); flag permille
iff any of the three markers occurs anywhere as a substring; strip at
most one trailing suffix, the first match among %, ‰, permille, /1000 in
that order, removed once; parse the remainder as a float; multiply by
0.1 iff the flag was set. -/
def parse_target_bac_refAlg (text : String) : Option ℚ :=
  let n := removeSpaces (pyLower (stripWs text.data))
  let flag := listContains ['‰'] n || listContains pmWord n || listContains slashKilo n
  let r := stripFirstMatching [['%'], ['‰'], pmWord, slashKilo] n
  (parsePyFloat r).map (fun x => if flag then x * 0.1 else x)

/-- The concrete scenario of spec section 8: male, 80 kg, 180 cm, 30 y,
3 h, target 0.08 g/dL, beta 0.015. -/
def scenario : Inputs :=
  { sex := .male
    weight_kg := 80
    height_cm := 180
    age_years := 30
    duration_hours := 3
    target_bac := 0.08
    beta := 0.015 }

/-! ### Helper lemmas -/

/-- The source parser and the spec's five-step reference algorithm agree
on every input string. -/
theorem parse_bac_eq_refAlg (s : String) : parse_bac s = parse_target_bac_refAlg s := by
  simp only [parse_bac, parse_target_bac_refAlg, normalizeBacText, hasPermilleMarker,
    permilleMarkers, suffixCandidates, List.any_cons, List.any_nil, Bool.or_false,
    Bool.or_assoc]
  cases parsePyFloat (stripFirstMatching [['%'], ['‰'], pmWord, slashKilo]
      (removeSpaces (pyLower (stripWs s.data)))) <;> rfl

/-- Casting preserves strict order from ℤ to ℚ (specialisation used below). -/
theorem intCast_lt_rat {a b : ℤ} (h : a < b) : (a : ℚ) < (b : ℚ) := by
  exact_mod_cast h

/-- Casting preserves non-strict order from ℤ to ℚ. -/
theorem intCast_le_rat {a b : ℤ} (h : a ≤ b) : (a : ℚ) ≤ (b : ℚ) := by
  exact_mod_cast h

/-! ### The claims -/

/-- C1: parse_target_bac behaves as the spec's 5-step reference algorithm
(normalize; permille flag by substring scan; strip at most one trailing
suffix, first match in the order %, ‰, permille, /1000; float-parse the
remainder; multiply by 0.1 iff the flag was set), and on the spec's four
examples it returns 0.05, 0.05, 5.0 and 0.08. -/
theorem C1_parse_bac_five_step_algorithm :
    (∀ s : String, parse_bac s = parse_target_bac_refAlg s) ∧
    parse_bac "0.05%" = some 0.05 ∧
    parse_bac "0.5‰" = some 0.05 ∧
    parse_bac "50permille" = some 5 ∧
    parse_bac "0.08" = some 0.08 := by
  refine ⟨parse_bac_eq_refAlg, ?_, ?_, ?_, ?_⟩
  · with_unfolding_all decide
  · with_unfolding_all decide
  · with_unfolding_all decide
  · with_unfolding_all decide

/-- C2: estimate_tbw returns exactly the Watson equation value for each
sex. -/
theorem C2_estimate_tbw_watson_equation (w h : ℚ) (a : ℤ) :
    watson_tbw_liters .male w h a = 2.447 - 0.09516 * (a : ℚ) + 0.1074 * h + 0.3362 * w ∧
    watson_tbw_liters .female w h a = -2.097 + 0.1069 * h + 0.2466 * w :=
  ⟨rfl, rfl⟩

/-- C3: in both output variants, total-for-duration equals loading plus
maintenance rate times duration, exactly. -/
theorem C3_total_equals_loading_plus_maintenance (inp : Inputs) :
    (make_plan inp).total_grams_for_duration =
      (make_plan inp).loading_grams + (make_plan inp).maintenance_g_per_h * inp.duration_hours ∧
    (make_plan_vol inp).total_ml_for_duration =
      (make_plan_vol inp).loading_ml + (make_plan_vol inp).maintenance_ml_per_h * inp.duration_hours := by
  constructor
  · rfl
  · simp only [make_plan_vol]
    ring

/-- C4: the permille-detection scan and the suffix-stripping scan are
independent: "5%" parses to 5.0 (suffix stripped, no scaling),
"5permille" to 0.5 (marker detected and suffix stripped), and whenever a
permille marker occurs anywhere in the normalized string, the result is
0.1 times whatever the remainder after suffix stripping parses to. -/
theorem C4_permille_scan_independent_of_suffix_strip :
    parse_bac "5%" = some 5 ∧
    parse_bac "5permille" = some 0.5 ∧
    ∀ s : String, hasPermilleMarker (normalizeBacText s) = true →
      parse_bac s = (parsePyFloat (stripFirstMatching suffixCandidates
        (normalizeBacText s))).map (fun x => x * 0.1) := by
  refine ⟨by with_unfolding_all decide, by with_unfolding_all decide, ?_⟩
  intro s hs
  simp only [parse_bac, hs, if_true]
  cases parsePyFloat (stripFirstMatching suffixCandidates (normalizeBacText s)) <;> rfl

/-- Witness for C4 at the contrived input "5‰x%": the marker is detected,
so the result is 0.1 times the parse of the remainder (here: a failed
parse, propagated). -/
theorem C4_witness :
    parse_bac "5‰x%" = (parsePyFloat (stripFirstMatching suffixCandidates
      (normalizeBacText "5‰x%"))).map (fun x => x * 0.1) :=
  C4_permille_scan_independent_of_suffix_strip.2.2 "5‰x%" (by with_unfolding_all decide)

/-- C5: the parser fails exactly when the remainder after suffix stripping
is not a float literal ("abc%" fails), and the other two core operations
are total functions. -/
theorem C5_parse_error_iff_bad_remainder :
    (∀ s : String, parse_bac s = none ↔
      parsePyFloat (stripFirstMatching suffixCandidates (normalizeBacText s)) = none) ∧
    parse_bac "abc%" = none ∧
    (∀ (sex : Sex) (w h : ℚ) (a : ℤ), ∃ v : ℚ, watson_tbw_liters sex w h a = v) ∧
    (∀ inp : Inputs, ∃ p : Plan, make_plan inp = p) ∧
    (∀ inp : Inputs, ∃ q : PlanVol, make_plan_vol inp = q) := by
  refine ⟨?_, by with_unfolding_all decide, fun sex w h a => ⟨_, rfl⟩,
    fun inp => ⟨_, rfl⟩, fun inp => ⟨_, rfl⟩⟩
  intro s
  simp only [parse_bac]
  cases parsePyFloat (stripFirstMatching suffixCandidates (normalizeBacText s)) <;> simp

/-- C6: the volume variant agrees with the mass variant: each milliliter
field is the corresponding gram field divided by the ethanol density
0.789, and each beverage volume is the ethanol volume divided by the ABV
fraction of the fixed table (Beer 0.05, Wine 0.12, Fortified Wine 0.18,
Spirits 0.40), for both the total and the per-hour figure. -/
theorem C6_volume_variant_refines_mass_variant (inp : Inputs) :
    (make_plan_vol inp).loading_ml = (make_plan inp).loading_grams / ETHANOL_DENSITY ∧
    (make_plan_vol inp).maintenance_ml_per_h =
      (make_plan inp).maintenance_g_per_h / ETHANOL_DENSITY ∧
    (make_plan_vol inp).total_ml_for_duration =
      (make_plan inp).total_grams_for_duration / ETHANOL_DENSITY ∧
    ETHANOL_DENSITY = 0.789 ∧
    BEVERAGES = [("Beer (5%)", 0.05), ("Wine (12%)", 0.12),
      ("Fortified Wine (18%)", 0.18), ("Spirits (40%)", 0.40)] ∧
    beverage_total_volumes (make_plan_vol inp) =
      BEVERAGES.map (fun nv => (nv.1, (make_plan_vol inp).total_ml_for_duration / nv.2)) ∧
    beverage_hourly_volumes (make_plan_vol inp) =
      BEVERAGES.map (fun nv => (nv.1, (make_plan_vol inp).maintenance_ml_per_h / nv.2)) :=
  ⟨rfl, rfl, rfl, rfl, rfl, rfl, rfl⟩

/-- C7: within the presentation-layer bounds (weight 30–200, height
120–220, age 15–100) estimate_tbw is strictly positive for both sexes,
while outside them it can go negative (no bound is enforced in the
core). -/
theorem C7_tbw_positive_in_bounds_negative_outside :
    (∀ (sex : Sex) (w h : ℚ) (a : ℤ), 30 ≤ w → w ≤ 200 → 120 ≤ h → h ≤ 220 →
      15 ≤ a → a ≤ 100 → 0 < watson_tbw_liters sex w h a) ∧
    (∃ (sex : Sex) (w h : ℚ) (a : ℤ), watson_tbw_liters sex w h a < 0) := by
  constructor
  · rintro sex w h a hw1 _ hh1 _ _ ha2
    have ha2q : (a : ℚ) ≤ 100 := by exact_mod_cast ha2
    cases sex
    · simp only [watson_tbw_liters]
      nlinarith
    · simp only [watson_tbw_liters]
      nlinarith
  · exact ⟨.female, 0, 0, 0, by norm_num [watson_tbw_liters]⟩

/-- Witness for C7 at the in-bounds input male, 80 kg, 180 cm, 30 y. -/
theorem C7_witness : 0 < watson_tbw_liters .male 80 180 30 :=
  C7_tbw_positive_in_bounds_negative_outside.1 .male 80 180 30
    (by norm_num) (by norm_num) (by norm_num) (by norm_num) (by norm_num) (by norm_num)

/-- C8 counterexample: in the spec's concrete scenario (male, 80 kg,
180 cm, 30 y, 3 h, target 0.08, beta 0.015) the loading dose is not
36.656 grams, the maintenance rate is not 6.873 g/h and the total is not
57.275 g — the claim's equalities fail (the true values are 36.65616,
6.87303 and 57.27525; the claimed figures are roundings). -/
theorem C8_counterexample :
    ¬(make_plan scenario).loading_grams = 36.656 ∧
    ¬(make_plan scenario).maintenance_g_per_h = 6.873 ∧
    ¬(make_plan scenario).total_grams_for_duration = 57.275 := by
  refine ⟨?_, ?_, ?_⟩ <;> norm_num [make_plan, watson_tbw_liters, scenario]

/-- C8 amended: in the concrete scenario, tbw_L = 45.8202, tbw_dL =
458.202, loading = 0.08 × 458.202 = 36.65616, maintenance = 0.015 ×
458.202 = 6.87303, total = 36.65616 + 6.87303 × 3 = 57.27525 (the spec's
36.656, 6.873 and 57.275 are these values rounded to three decimals),
and the standard-drink counts are within 0.005 of 4.77 and 4.09. -/
theorem C8_amended_scenario_values :
    (make_plan scenario).tbw_L = 45.8202 ∧
    (make_plan scenario).tbw_dL = 458.202 ∧
    (make_plan scenario).loading_grams = 36.65616 ∧
    (make_plan scenario).maintenance_g_per_h = 6.87303 ∧
    (make_plan scenario).total_grams_for_duration = 57.27525 ∧
    |(make_plan scenario).std_drinks_12g - 4.77| < 0.005 ∧
    |(make_plan scenario).std_drinks_14g - 4.09| < 0.005 := by
  norm_num [make_plan, watson_tbw_liters, scenario]
  constructor
  all_goals rw [abs_lt]; norm_num

/-- C9 counterexample: the runtime dispatch of watson_tbw_liters is an
if/else on sex == "male", so the value "other" — which is neither of the
two recognized categories — is mapped to the female formula inside the
function, against the claim that no third value reaches either formula. -/
theorem C9_counterexample :
    watson_tbw_liters_runtime "other" 80 180 30 =
      watson_tbw_liters_runtime "female" 80 180 30 ∧
    ¬("other" = "male") ∧ ¬("other" = "female") :=
  ⟨rfl, by decide, by decide⟩

/-- C9 amended: the Sex type alias restricts callers to the two variants,
and on those two the dispatch computes the male and female Watson
formulas; but the function body is a two-way if/else on sex == "male",
so at runtime every string other than "male" — recognized or not — falls
into the else branch and is mapped to the female formula. -/
theorem C9_amended_dispatch_is_if_else :
    (∀ (w h : ℚ) (a : ℤ),
      watson_tbw_liters_runtime "male" w h a = watson_tbw_liters .male w h a ∧
      watson_tbw_liters_runtime "female" w h a = watson_tbw_liters .female w h a) ∧
    (∀ (s : String) (w h : ℚ) (a : ℤ), ¬(s = "male") →
      watson_tbw_liters_runtime s w h a = -2.097 + 0.1069 * h + 0.2466 * w) := by
  refine ⟨fun w h a => ⟨?_, ?_⟩, ?_⟩
  · simp [watson_tbw_liters_runtime, watson_tbw_liters]
  · simp [watson_tbw_liters_runtime, watson_tbw_liters]
  · intro s w h a hs
    simp only [watson_tbw_liters_runtime, if_neg hs]

/-- Witness for C9 at the unrecognized value "unicorn". -/
theorem C9_witness :
    watson_tbw_liters_runtime "unicorn" 60 170 40 = -2.097 + 0.1069 * 170 + 0.2466 * 60 :=
  C9_amended_dispatch_is_if_else.2 "unicorn" 60 170 40 (by decide)

/-- C10: for each sex, estimate_tbw is strictly increasing in weight and
in height; for male it is strictly decreasing in age; for female it does
not depend on age at all. -/
theorem C10_tbw_monotonicity :
    (∀ (sex : Sex) (w1 w2 h : ℚ) (a : ℤ), w1 < w2 →
      watson_tbw_liters sex w1 h a < watson_tbw_liters sex w2 h a) ∧
    (∀ (sex : Sex) (w h1 h2 : ℚ) (a : ℤ), h1 < h2 →
      watson_tbw_liters sex w h1 a < watson_tbw_liters sex w h2 a) ∧
    (∀ (w h : ℚ) (a1 a2 : ℤ), a1 < a2 →
      watson_tbw_liters .male w h a2 < watson_tbw_liters .male w h a1) ∧
    (∀ (w h : ℚ) (a1 a2 : ℤ),
      watson_tbw_liters .female w h a1 = watson_tbw_liters .female w h a2) := by
  refine ⟨?_, ?_, ?_, fun w h a1 a2 => rfl⟩
  · rintro sex w1 w2 h a hw
    cases sex <;> simp only [watson_tbw_liters] <;> nlinarith
  · rintro sex w h1 h2 a hh
    cases sex <;> simp only [watson_tbw_liters] <;> nlinarith
  · intro w h a1 a2 ha
    have haq : (a1 : ℚ) < (a2 : ℚ) := intCast_lt_rat ha
    simp only [watson_tbw_liters]
    nlinarith

/-- Witness for C10 at concrete inputs for each monotonicity conjunct. -/
theorem C10_witness :
    watson_tbw_liters .male 70 180 30 < watson_tbw_liters .male 80 180 30 ∧
    watson_tbw_liters .female 70 160 25 < watson_tbw_liters .female 70 170 25 ∧
    watson_tbw_liters .male 80 180 40 < watson_tbw_liters .male 80 180 30 ∧
    watson_tbw_liters .female 70 160 25 = watson_tbw_liters .female 70 160 99 :=
  ⟨C10_tbw_monotonicity.1 .male 70 80 180 30 (by norm_num),
   C10_tbw_monotonicity.2.1 .female 70 160 170 25 (by norm_num),
   C10_tbw_monotonicity.2.2.1 80 180 30 40 (by norm_num),
   C10_tbw_monotonicity.2.2.2 70 160 25 99⟩

end BacPlanner
